import Mathlib

/-!
# Vulkan buffer memory (`ext/vulkan/vkbuffermemory.c`)

A shallow embedding of the buffer-memory object of the Vulkan plugin: its
construction (allocated or wrapped), the one-shot bind to a device-memory
region, map/unmap, teardown, and the allocate-and-bind convenience path.

Conventions of the embedding.

* Pointers and Vulkan handles are natural numbers, `0` being `NULL`
  (`VK_NULL_HANDLE`).
* `gsize`, `guint64` and `VkDeviceSize` are naturals with an explicit
  `% WORD` wherever the C arithmetic can wrap.
* The device, the generic memory abstraction and the device-memory allocator
  are collaborators outside this file: their answers are the fields of `Env`,
  and every call made to them is appended to `World.trace`.
* Device-memory regions live in `World.memories`, addressed by pointer, so
  that pointer identity and reference counts are explicit.
* The model is sequential: `g_mutex_lock` / `g_mutex_unlock` pairs have no
  effect in it and are not recorded. `g_return_val_if_fail` performs its check
  (GLib built with checks, the default).
-/

namespace VkBufferMemory

/-- Number of values of the unsigned 64-bit types `gsize`, `guint64`, `VkDeviceSize`. -/
def WORD : Nat := 2 ^ 64

/-- Run-time type of an allocator object, as far as `g_type_is_a` distinguishes it here. -/
inductive GType where
  | vulkanBufferMemoryAllocator
  | vulkanMemoryAllocator
  | otherAllocator
  deriving DecidableEq, Repr

/-- The three fields of `VkMemoryRequirements`. -/
structure VkMemoryRequirements where
  size : Nat
  alignment : Nat
  memoryTypeBits : Nat
  deriving DecidableEq, Repr

/-- Allocation parameters of the generic memory abstraction
(`pfx` is the field the C code calls `prefix`). -/
structure GstAllocationParams where
  flags : Nat
  align : Nat
  pfx : Nat
  padding : Nat
  deriving DecidableEq, Repr

/-- The header every memory object starts with. `allocator` is `none` for a
`NULL` allocator pointer, otherwise the type of the allocator object. -/
structure GstMemory where
  refcount : Nat
  flags : Nat
  allocator : Option GType
  maxsize : Nat
  align : Nat
  offset : Nat
  size : Nat
  deriving DecidableEq, Repr

/-- A device-memory region, with the fields this file reads. -/
structure GstVulkanMemory where
  mem : GstMemory
  mem_ptr : Nat
  vk_offset : Nat
  deriving DecidableEq, Repr

/-- The buffer-memory object. `vk_mem` is the pointer to the bound region
(`0` while unbound), `notify` a function pointer (`0` when none). -/
structure GstVulkanBufferMemory where
  mem : GstMemory
  device : Nat
  buffer : Nat
  vk_mem : Nat
  requirements : VkMemoryRequirements
  wrapped : Bool
  notify : Nat
  user_data : Nat
  deriving DecidableEq, Repr

/-- The part of `GstMapInfo` this file touches. -/
structure GstMapInfo where
  flags : Nat
  user_data0 : Nat
  deriving DecidableEq, Repr

/-- Calls made to the collaborators, with their arguments. -/
inductive Event where
  | vkCreateBuffer (device size usage : Nat)
  | vkGetBufferMemoryRequirements (device buffer : Nat)
  | vkDestroyBuffer (device buffer : Nat)
  | vkBindBufferMemory (device buffer mem_ptr vk_offset : Nat)
  | gst_object_ref (device : Nat)
  | gst_object_unref (device : Nat)
  | gst_memory_ref (memory : Nat)
  | gst_memory_unref (memory : Nat)
  | gst_memory_map (memory vk_map_info flags : Nat)
  | gst_memory_unmap (memory vk_map_info : Nat)
  | g_free (ptr : Nat)
  | notify (fn user_data : Nat)
  | find_memory_type_index (device typeBits properties : Nat)
  | gst_vulkan_memory_alloc (device type_idx align size properties : Nat)
  deriving DecidableEq, Repr

/-- Answers of the collaborators and the values of the globals and constants
defined outside this file. `gst_memory_map` and `g_new0` are called repeatedly
with the same arguments, so their answers may depend on the call history. -/
structure Env where
  /-- Global `gst_memory_alignment` of the generic memory abstraction. -/
  gst_memory_alignment : Nat
  /-- Constants of the flag vocabulary of the generic memory abstraction. -/
  GST_MEMORY_FLAG_NOT_MAPPABLE : Nat
  GST_MEMORY_FLAG_READONLY : Nat
  /-- Global `_vulkan_buffer_memory_allocator`: `none` before
  `gst_vulkan_buffer_memory_init_once`, the buffer allocator after it. -/
  allocator : Option GType
  /-- Result code and handle written by `vkCreateBuffer (device, size, usage)`. -/
  vkCreateBuffer : Nat → Nat → Nat → Int × Nat
  vkGetBufferMemoryRequirements : Nat → Nat → VkMemoryRequirements
  /-- Result code of `vkBindBufferMemory (device, buffer, mem_ptr, offset)`. -/
  vkBindBufferMemory : Nat → Nat → Nat → Nat → Int
  /-- Type index found for `(device, typeBits, properties)`, `none` when the lookup fails. -/
  find_memory_type_index : Nat → Nat → Nat → Option Nat
  /-- Pointer (`0` on failure) and contents of the region returned by
  `gst_vulkan_memory_alloc (device, type_idx, align, size, properties)`. -/
  gst_vulkan_memory_alloc : Nat → Nat → Nat → Nat → Nat → Nat × GstVulkanMemory
  /-- Data address written by a successful `gst_memory_map (memory, _, flags)`, `none` when it fails. -/
  gst_memory_map : List Event → Nat → Nat → Option Nat
  /-- Address returned by `g_new0 (GstMapInfo, 1)`. -/
  g_new0 : List Event → Nat

/-- The mutable surroundings of a buffer-memory object: the device-memory
regions by address, and the calls made so far. -/
structure World where
  memories : Nat → Option GstVulkanMemory
  trace : List Event

/-- Record one call. -/
def World.emit (w : World) (e : Event) : World :=
  { w with trace := w.trace ++ [e] }

/-- Change the reference count of the region at `memory` (other fields and regions untouched). -/
def World.setRefcount (w : World) (memory : Nat) (f : Nat → Nat) : World :=
  { memories := fun p =>
      if p = memory then
        match w.memories p with
        | none => none
        | some m => some { m with mem := { m.mem with refcount := f m.mem.refcount } }
      else w.memories p
    trace := w.trace }

/-- Reference count of the region at `memory`, `none` when there is no region there. -/
def World.refcount (w : World) (memory : Nat) : Option Nat :=
  (w.memories memory).map (fun m => m.mem.refcount)

/-- Modelled from the spec: `gst_memory_ref` of the generic memory abstraction
("reference acquire"), applied to a device-memory region: one more reference. -/
def gst_memory_ref (w : World) (memory : Nat) : World :=
  (w.setRefcount memory (fun n => n + 1)).emit (Event.gst_memory_ref memory)

/-- Modelled from the spec: `gst_memory_unref` of the generic memory abstraction
("reference release"), applied to a device-memory region: one reference less.
What the region does when its count reaches zero is its own allocator's business. -/
def gst_memory_unref (w : World) (memory : Nat) : World :=
  (w.setRefcount memory (fun n => n - 1)).emit (Event.gst_memory_unref memory)

/-- Modelled from the spec: `gst_memory_get_sizes (mem, NULL, &maxsize)` of the
generic memory abstraction ("query-region-capacity"): returns the size and
writes `maxsize`. -/
def gst_memory_get_sizes (mem : GstMemory) : Nat × Nat :=
  (mem.size, mem.maxsize)

/-- The type check `gst_is_vulkan_buffer_memory`: the pointer is not `NULL`, its
allocator is not `NULL`, and the allocator is a buffer-memory allocator. -/
def gst_is_vulkan_buffer_memory (mem : Option GstMemory) : Bool :=
  match mem with
  | none => false
  | some m =>
    match m.allocator with
    | none => false
    | some t => decide (t = GType.vulkanBufferMemoryAllocator)

/-- Modelled from the spec: `gst_is_vulkan_memory` of the device-memory
collaborator ("the region is a valid device-memory object"): the pointer is not
`NULL` and points to a memory object whose allocator is the device-memory
allocator. -/
def gst_is_vulkan_memory (w : World) (memory : Nat) : Bool :=
  if memory = 0 then false
  else
    match w.memories memory with
    | none => false
    | some m => decide (m.mem.allocator = some GType.vulkanMemoryAllocator)

/-- The capacity check of bind, in the arithmetic of the C expression
`memory->vk_offset + buf_mem->requirements.size <= maxsize` (64-bit unsigned). -/
def bind_fits (buf_mem : GstVulkanBufferMemory) (m : GstVulkanMemory) : Bool :=
  decide ((m.vk_offset + buf_mem.requirements.size) % WORD ≤ (gst_memory_get_sizes m.mem).2)

/-- The function `gst_vulkan_buffer_memory_bind (buf_mem, memory)`: result, the
buffer memory afterwards, the world afterwards. -/
def gst_vulkan_buffer_memory_bind (env : Env) (w : World)
    (buf_mem : GstVulkanBufferMemory) (memory : Nat) :
    Bool × GstVulkanBufferMemory × World :=
  if gst_is_vulkan_buffer_memory (some buf_mem.mem) = false then (false, buf_mem, w)
  else if gst_is_vulkan_memory w memory = false then (false, buf_mem, w)
  else
    match w.memories memory with
    | none => (false, buf_mem, w)
    | some m =>
      -- will we overrun the allocated data
      if bind_fits buf_mem m = false then (false, buf_mem, w)
      else if buf_mem.vk_mem = memory then (true, buf_mem, w)
      else if buf_mem.vk_mem ≠ 0 then (false, buf_mem, w)
      else
        -- the result code of the native call is not looked at
        let _err := env.vkBindBufferMemory buf_mem.device buf_mem.buffer m.mem_ptr m.vk_offset
        let w1 := w.emit
          (Event.vkBindBufferMemory buf_mem.device buf_mem.buffer m.mem_ptr m.vk_offset)
        let w2 := gst_memory_ref w1 memory
        (true, { buf_mem with vk_mem := memory }, w2)

/-- All three checks made by bind before it takes the lock. -/
def bind_validation (w : World) (buf_mem : GstVulkanBufferMemory) (memory : Nat) : Bool :=
  gst_is_vulkan_buffer_memory (some buf_mem.mem) &&
  gst_is_vulkan_memory w memory &&
  (match w.memories memory with
   | none => false
   | some m => bind_fits buf_mem m)

/-- The creation descriptor built by the C code (`VkBufferCreateInfo`): no
extension chain, no flags, exclusive sharing, no queue families. -/
structure VkBufferCreateInfo where
  pNext : Nat
  flags : Nat
  size : Nat
  usage : Nat
  sharingMode : Nat
  queueFamilyIndexCount : Nat
  pQueueFamilyIndices : Nat
  deriving DecidableEq, Repr

/-- The value `VK_SHARING_MODE_EXCLUSIVE` of the Vulkan headers. -/
def VK_SHARING_MODE_EXCLUSIVE : Nat := 0

/-- The helper `_create_info_from_args`: fills the descriptor, always `TRUE`. -/
def _create_info_from_args (size usage : Nat) : Bool × VkBufferCreateInfo :=
  (true, { pNext := 0, flags := 0, size := size, usage := usage,
           sharingMode := VK_SHARING_MODE_EXCLUSIVE, queueFamilyIndexCount := 0,
           pQueueFamilyIndices := 0 })

/-- Modelled from the spec: `gst_vulkan_error_to_g_error` of the device
collaborator ("an error-translation call that turns a native result code into a
structured error"): it hands the result code back, and the caller treats a
negative code as failure. -/
def gst_vulkan_error_to_g_error (err : Int) : Int := err

/-- Modelled from the spec: `gst_memory_init` of the generic memory abstraction:
a header with one reference and the given flags, allocator, maxsize, align,
offset and size (the parent is `NULL` at every call of this file). -/
def gst_memory_init (flags : Nat) (allocator : Option GType)
    (maxsize align offset size : Nat) : GstMemory :=
  { refcount := 1, flags := flags, allocator := allocator, maxsize := maxsize,
    align := align, offset := offset, size := size }

/-- What `g_new0 (GstVulkanBufferMemory, 1)` returns: every field zero. -/
def g_new0_GstVulkanBufferMemory : GstVulkanBufferMemory :=
  { mem := { refcount := 0, flags := 0, allocator := none, maxsize := 0, align := 0,
             offset := 0, size := 0 },
    device := 0, buffer := 0, vk_mem := 0,
    requirements := { size := 0, alignment := 0, memoryTypeBits := 0 },
    wrapped := false, notify := 0, user_data := 0 }

/-- The initialiser `_vk_buffer_mem_init`. -/
def _vk_buffer_mem_init (env : Env) (w : World) (mem : GstVulkanBufferMemory)
    (allocator : Option GType) (device : Nat) (params : Option GstAllocationParams)
    (size user_data notify : Nat) : GstVulkanBufferMemory × World :=
  let align0 := env.gst_memory_alignment
  let offset0 := 0
  let maxsize0 := size
  let flags0 := 0
  let flags := match params with
    | none => flags0
    | some p => p.flags
  let align := match params with
    | none => align0
    | some p => align0 ||| p.align
  let offset := match params with
    | none => offset0
    | some p => p.pfx
  let maxsize := match params with
    | none => maxsize0
    | some p => (maxsize0 + (p.pfx + p.padding + align)) % WORD
  let hdr := gst_memory_init flags allocator maxsize align offset size
  let w1 := w.emit (Event.gst_object_ref device)
  ({ mem with mem := hdr, device := device, wrapped := false, notify := notify,
              user_data := user_data }, w1)

/-- The constructor `_vk_buffer_mem_new_alloc`: `none` is the `NULL` result. -/
def _vk_buffer_mem_new_alloc (env : Env) (w : World) (allocator : Option GType)
    (device size usage mem_prop_flags user_data notify : Nat) :
    Option GstVulkanBufferMemory × World :=
  let _ := mem_prop_flags
  let ci := _create_info_from_args size usage
  if ci.1 = false then (none, w)
  else
    let created := env.vkCreateBuffer device ci.2.size ci.2.usage
    let w1 := w.emit (Event.vkCreateBuffer device ci.2.size ci.2.usage)
    if gst_vulkan_error_to_g_error created.1 < 0 then (none, w1)
    else
      let buffer := created.2
      let mem0 := g_new0_GstVulkanBufferMemory
      let mem1 := { mem0 with
        requirements := env.vkGetBufferMemoryRequirements device buffer }
      let w2 := w1.emit (Event.vkGetBufferMemoryRequirements device buffer)
      let params : GstAllocationParams :=
        { flags := 0, align := mem1.requirements.alignment, pfx := 0, padding := 0 }
      let r := _vk_buffer_mem_init env w2 mem1 allocator device (some params)
        mem1.requirements.size user_data notify
      (some { r.1 with buffer := buffer }, r.2)

/-- The constructor `_vk_buffer_mem_new_wrapped`. -/
def _vk_buffer_mem_new_wrapped (env : Env) (w : World) (allocator : Option GType)
    (device buffer usage user_data notify : Nat) : GstVulkanBufferMemory × World :=
  let _ := usage
  let mem0 := g_new0_GstVulkanBufferMemory
  let mem1 := { mem0 with buffer := buffer }
  let mem2 := { mem1 with
    requirements := env.vkGetBufferMemoryRequirements device mem1.buffer }
  let w1 := w.emit (Event.vkGetBufferMemoryRequirements device mem1.buffer)
  -- no device memory so no mapping
  let params : GstAllocationParams :=
    { flags := env.GST_MEMORY_FLAG_NOT_MAPPABLE ||| env.GST_MEMORY_FLAG_READONLY,
      align := 0, pfx := 0, padding := 0 }
  let r := _vk_buffer_mem_init env w1 mem2 allocator device (some params)
    mem2.requirements.size user_data notify
  ({ r.1 with wrapped := true }, r.2)

/-- The map callback `_vk_buffer_mem_map_full`: returned pointer (`0` is
`NULL`), the caller's map info afterwards, the world afterwards. -/
def _vk_buffer_mem_map_full (env : Env) (w : World) (mem : GstVulkanBufferMemory)
    (info : GstMapInfo) (size : Nat) : Nat × GstMapInfo × World :=
  let _ := size
  if mem.vk_mem = 0 then (0, info, w)
  else
    let vk_map_info := env.g_new0 w.trace
    let info1 := { info with user_data0 := vk_map_info }
    let w1 := w.emit (Event.gst_memory_map mem.vk_mem vk_map_info info1.flags)
    match env.gst_memory_map w.trace mem.vk_mem info1.flags with
    | none => (0, info1, w1.emit (Event.g_free vk_map_info))
    | some data => (data, info1, w1)

/-- The unmap callback `_vk_buffer_mem_unmap_full`. -/
def _vk_buffer_mem_unmap_full (w : World) (mem : GstVulkanBufferMemory)
    (info : GstMapInfo) : World :=
  let w1 := w.emit (Event.gst_memory_unmap mem.vk_mem info.user_data0)
  w1.emit (Event.g_free info.user_data0)

/-- The unsupported callbacks `_vk_buffer_mem_copy`, `_vk_buffer_mem_share`
(`none` is `NULL`) and `_vk_buffer_mem_is_span`. -/
def _vk_buffer_mem_copy (_src : GstVulkanBufferMemory) (_offset _size : Int) :
    Option GstMemory := none

def _vk_buffer_mem_share (_mem : GstVulkanBufferMemory) (_offset _size : Int) :
    Option GstMemory := none

def _vk_buffer_mem_is_span (_mem1 _mem2 : GstVulkanBufferMemory) : Bool := false

/-- The teardown `_vk_buffer_mem_free`. -/
def _vk_buffer_mem_free (w : World) (mem : GstVulkanBufferMemory) : World :=
  let w1 :=
    if mem.buffer ≠ 0 ∧ mem.wrapped = false then
      w.emit (Event.vkDestroyBuffer mem.device mem.buffer)
    else w
  let w2 := if mem.vk_mem ≠ 0 then gst_memory_unref w1 mem.vk_mem else w1
  let w3 :=
    if mem.notify ≠ 0 then w2.emit (Event.notify mem.notify mem.user_data) else w2
  w3.emit (Event.gst_object_unref mem.device)

/-- Modelled from the spec: `gst_memory_unref` of the generic memory abstraction
applied to a buffer memory ("destroyed when the last reference is released,
triggering teardown"): one reference less, and when the count reaches zero the
free callback of the object's allocator class runs, which for the buffer-memory
allocator is `_vk_buffer_mem_free`. -/
def gst_memory_unref_buffer (w : World) (mem : GstVulkanBufferMemory) :
    GstVulkanBufferMemory × World :=
  let mem1 := { mem with mem := { mem.mem with refcount := mem.mem.refcount - 1 } }
  if mem1.mem.refcount = 0 then
    match mem1.mem.allocator with
    | some GType.vulkanBufferMemoryAllocator => (mem1, _vk_buffer_mem_free w mem1)
    | _ => (mem1, w)
  else (mem1, w)

/-- The factory `gst_vulkan_buffer_memory_alloc` (the format is not consulted). -/
def gst_vulkan_buffer_memory_alloc (env : Env) (w : World)
    (device format size usage mem_prop_flags : Nat) :
    Option GstVulkanBufferMemory × World :=
  let _ := format
  _vk_buffer_mem_new_alloc env w env.allocator device size usage mem_prop_flags 0 0

/-- The factory `gst_vulkan_buffer_memory_wrapped`. -/
def gst_vulkan_buffer_memory_wrapped (env : Env) (w : World)
    (device buffer format usage user_data notify : Nat) :
    GstVulkanBufferMemory × World :=
  let _ := format
  _vk_buffer_mem_new_wrapped env w env.allocator device buffer usage user_data notify

/-- Modelled from the spec: `gst_vulkan_memory_alloc` of the device-memory
collaborator ("allocate-region(type index, alignment mask, size, property
flags)"): on success a new region is placed at the returned address, holding the
one reference that belongs to the caller ("the temporary local reference"). -/
def gst_vulkan_memory_alloc (env : Env) (w : World)
    (device type_idx align size mem_prop_flags : Nat) : Nat × World :=
  let r := env.gst_vulkan_memory_alloc device type_idx align size mem_prop_flags
  let w1 := w.emit (Event.gst_vulkan_memory_alloc device type_idx align size mem_prop_flags)
  if r.1 = 0 then (0, w1)
  else
    (r.1, { w1 with memories := fun p =>
      if p = r.1 then some { r.2 with mem := { r.2.mem with refcount := 1 } }
      else w1.memories p })

/-- Outcome of allocate-and-bind: the returned pointer (`none` is `NULL`), and,
for inspection, the last state of the buffer memory it built (`none` when none
was built), the address of the region it allocated (`0` when none was), and the
world afterwards. -/
structure AllocBind where
  ret : Option GstVulkanBufferMemory
  mem : Option GstVulkanBufferMemory
  dev_mem : Nat
  world : World

/-- The factory `gst_vulkan_buffer_memory_alloc_bind`. -/
def gst_vulkan_buffer_memory_alloc_bind (env : Env) (w : World)
    (device format size usage mem_prop_flags : Nat) : AllocBind :=
  let a := gst_vulkan_buffer_memory_alloc env w device format size usage mem_prop_flags
  match a.1 with
  | none => { ret := none, mem := none, dev_mem := 0, world := a.2 }
  | some mem =>
    let w1 := a.2.emit
      (Event.find_memory_type_index device mem.requirements.memoryTypeBits mem_prop_flags)
    match env.find_memory_type_index device mem.requirements.memoryTypeBits
        mem_prop_flags with
    | none =>
      let u := gst_memory_unref_buffer w1 mem
      { ret := none, mem := some u.1, dev_mem := 0, world := u.2 }
    | some type_idx =>
      -- assumes alignment is a power of 2
      let params : GstAllocationParams :=
        { flags := 0, align := (mem.requirements.alignment + WORD - 1) % WORD,
          pfx := 0, padding := 0 }
      let d := gst_vulkan_memory_alloc env w1 device type_idx params.align
        mem.requirements.size mem_prop_flags
      let dev_mem := d.1
      if dev_mem = 0 then
        let u := gst_memory_unref_buffer d.2 mem
        { ret := none, mem := some u.1, dev_mem := 0, world := u.2 }
      else
        let b := gst_vulkan_buffer_memory_bind env d.2 mem dev_mem
        if b.1 = false then
          let w2 := gst_memory_unref b.2.2 dev_mem
          let u := gst_memory_unref_buffer w2 b.2.1
          { ret := none, mem := some u.1, dev_mem := dev_mem, world := u.2 }
        else
          let w2 := gst_memory_unref b.2.2 dev_mem
          { ret := some b.2.1, mem := some b.2.1, dev_mem := dev_mem, world := w2 }

/-- A public operation on an existing buffer memory: bind to the region at
`memory`, map with a map info and size, unmap with a map info. -/
inductive Op where
  | bind (memory : Nat)
  | map (info : GstMapInfo) (size : Nat)
  | unmap (info : GstMapInfo)
  deriving DecidableEq, Repr

/-- Apply one operation to a buffer memory and its world. -/
def Op.apply (env : Env) (s : GstVulkanBufferMemory × World) :
    Op → GstVulkanBufferMemory × World
  | Op.bind memory =>
    let r := gst_vulkan_buffer_memory_bind env s.2 s.1 memory
    (r.2.1, r.2.2)
  | Op.map info size => (s.1, (_vk_buffer_mem_map_full env s.2 s.1 info size).2.2)
  | Op.unmap info => (s.1, _vk_buffer_mem_unmap_full s.2 s.1 info)

/-- Apply a sequence of operations, first to last. -/
def runOps (env : Env) (s : GstVulkanBufferMemory × World) (ops : List Op) :
    GstVulkanBufferMemory × World :=
  ops.foldl (Op.apply env) s

/-- The steps of allocate-and-bind that can fail, read off the answers of the
collaborators for a request `(device, size, usage, mem_prop_flags)`: buffer
creation reports no error, a memory type is found for the queried type bits and
the requested property flags, the region allocation for that type, the queried
size and the alignment mask returns a region, and bind validation accepts the
pair (the buffer memory carries the buffer allocator, the region the
device-memory allocator, and the region's offset plus the queried size is
within its capacity, in the arithmetic of the C check). -/
def alloc_bind_steps_succeed (env : Env) (device size usage mem_prop_flags : Nat) : Bool :=
  let created := env.vkCreateBuffer device size usage
  let req := env.vkGetBufferMemoryRequirements device created.2
  decide (0 ≤ created.1) &&
  match env.find_memory_type_index device req.memoryTypeBits mem_prop_flags with
  | none => false
  | some type_idx =>
    let r := env.gst_vulkan_memory_alloc device type_idx
      ((req.alignment + WORD - 1) % WORD) req.size mem_prop_flags
    decide (r.1 ≠ 0) &&
    decide (env.allocator = some GType.vulkanBufferMemoryAllocator) &&
    decide (r.2.mem.allocator = some GType.vulkanMemoryAllocator) &&
    decide ((r.2.vk_offset + req.size) % WORD ≤ r.2.mem.maxsize)

/-! ## Concrete devices and objects used to evaluate the definitions -/

/-- The world with no region and no call made. -/
def World.empty : World := { memories := fun _ => none, trace := [] }

/-- A device-memory region with one reference. -/
def mockRegion (mem_ptr vk_offset maxsize : Nat) : GstVulkanMemory :=
  { mem := { refcount := 1, flags := 0, allocator := some GType.vulkanMemoryAllocator,
             maxsize := maxsize, align := 255, offset := 0, size := maxsize },
    mem_ptr := mem_ptr, vk_offset := vk_offset }

/-- The mock device of the concrete scenario: requirements
`{size 4096, alignment 256, memoryTypeBits 0x7}`, property flags `6` matched by
type index 2 only, regions allocated at address `100`, maps answering `4242`. -/
def mockEnv : Env :=
  { gst_memory_alignment := 7
    GST_MEMORY_FLAG_NOT_MAPPABLE := 256
    GST_MEMORY_FLAG_READONLY := 2
    allocator := some GType.vulkanBufferMemoryAllocator
    vkCreateBuffer := fun _ _ _ => (0, 11)
    vkGetBufferMemoryRequirements := fun _ _ =>
      { size := 4096, alignment := 256, memoryTypeBits := 7 }
    vkBindBufferMemory := fun _ _ _ _ => 0
    find_memory_type_index := fun _ typeBits properties =>
      if typeBits / 4 % 2 = 1 ∧ properties = 6 then some 2 else none
    gst_vulkan_memory_alloc := fun _ _ _ size _ => (100, mockRegion 55 0 size)
    gst_memory_map := fun _ _ _ => some 4242
    g_new0 := fun _ => 900 }

/-- The same device with no memory type matching any property flags. -/
def mockEnvNoType : Env :=
  { mockEnv with find_memory_type_index := fun _ _ _ => none }

/-- The same device handing out regions of 1024 bytes whatever size is asked. -/
def mockEnvSmallRegion : Env :=
  { mockEnv with gst_vulkan_memory_alloc := fun _ _ _ _ _ => (100, mockRegion 55 0 1024) }

/-- A world with two regions, at addresses `100` and `200`, of 8192 bytes each. -/
def mockWorld : World :=
  { memories := fun p =>
      if p = 100 then some (mockRegion 55 0 8192)
      else if p = 200 then some (mockRegion 66 0 8192)
      else none
    trace := [] }

/-- A buffer memory of the buffer allocator with requirements
`{4096, 256, 0x7}`, bound to the region at `vk_mem` (`0`: unbound). -/
def mockBuffer (vk_mem : Nat) : GstVulkanBufferMemory :=
  { mem := { refcount := 1, flags := 0,
             allocator := some GType.vulkanBufferMemoryAllocator,
             maxsize := 4096 + 263, align := 263, offset := 0, size := 4096 },
    device := 1, buffer := 11, vk_mem := vk_mem,
    requirements := { size := 4096, alignment := 256, memoryTypeBits := 7 },
    wrapped := false, notify := 0, user_data := 0 }

/-- An unbound buffer memory whose required size is `2 ^ 64 - 8`. -/
def hugeBuffer : GstVulkanBufferMemory :=
  { mockBuffer 0 with
    requirements := { size := 18446744073709551608, alignment := 256, memoryTypeBits := 7 } }

/-- A world with one region at address `100`: offset 16, capacity 4096. -/
def smallWorld : World :=
  { memories := fun p => if p = 100 then some (mockRegion 55 16 4096) else none
    trace := [] }

/-- A caller's map info asking for read and write access. -/
def mockInfo : GstMapInfo := { flags := 3, user_data0 := 0 }

/-- The wrapped buffer memory made from handle `11` on the mock device, with
payload `77` and release callback `88`, and the world after its construction. -/
def wrappedMock : GstVulkanBufferMemory × World :=
  gst_vulkan_buffer_memory_wrapped mockEnv mockWorld 1 11 0 0 77 88

/-! ## Bind -/

/-- Bind validation spelled out: the buffer memory is of the buffer allocator,
there is a device-memory region at `memory`, and it passes the capacity check. -/
theorem bind_validation_iff (w : World) (buf_mem : GstVulkanBufferMemory) (memory : Nat) :
    bind_validation w buf_mem memory = true ↔
      gst_is_vulkan_buffer_memory (some buf_mem.mem) = true ∧
      gst_is_vulkan_memory w memory = true ∧
      ∃ m, w.memories memory = some m ∧ bind_fits buf_mem m = true := by
  unfold bind_validation
  cases h : w.memories memory <;> simp [h, and_assoc]

/-- The capacity inequality over the unbounded integers implies the check the C
code makes. -/
theorem bind_fits_of_le (buf_mem : GstVulkanBufferMemory) (m : GstVulkanMemory)
    (h : m.vk_offset + buf_mem.requirements.size ≤ m.mem.maxsize) :
    bind_fits buf_mem m = true := by
  unfold bind_fits gst_memory_get_sizes
  simp only [decide_eq_true_eq]
  exact le_trans (Nat.mod_le _ _) h

/-- A bind whose validation fails returns `FALSE` and changes nothing. -/
theorem bind_of_validation_false (env : Env) (w : World) (buf_mem : GstVulkanBufferMemory)
    (memory : Nat) (h : bind_validation w buf_mem memory = false) :
    gst_vulkan_buffer_memory_bind env w buf_mem memory = (false, buf_mem, w) := by
  unfold bind_validation at h
  unfold gst_vulkan_buffer_memory_bind
  cases h1 : gst_is_vulkan_buffer_memory (some buf_mem.mem) <;> simp [h1] at h ⊢
  cases h2 : gst_is_vulkan_memory w memory <;> simp [h2] at h ⊢
  cases h3 : w.memories memory <;> simp [h3] at h ⊢
  simp [h]

/-- A bind of an unbound buffer memory whose validation passes: the native call
at the region's offset, one reference taken, the pointer stored, `TRUE`. -/
theorem bind_of_unbound (env : Env) (w : World) (buf_mem : GstVulkanBufferMemory)
    (memory : Nat) (m : GstVulkanMemory) (hu : buf_mem.vk_mem = 0)
    (hm : w.memories memory = some m)
    (h : bind_validation w buf_mem memory = true) :
    gst_vulkan_buffer_memory_bind env w buf_mem memory =
      (true, { buf_mem with vk_mem := memory },
        gst_memory_ref
          (w.emit (Event.vkBindBufferMemory buf_mem.device buf_mem.buffer m.mem_ptr
            m.vk_offset)) memory) := by
  obtain ⟨h1, h2, m', hm', h3⟩ := (bind_validation_iff w buf_mem memory).1 h
  rw [hm] at hm'
  cases hm'
  have hne : memory ≠ 0 := by
    intro h0
    simp [gst_is_vulkan_memory, h0] at h2
  have hne' : ¬ (0 = memory) := fun h0 => hne h0.symm
  unfold gst_vulkan_buffer_memory_bind
  simp [h1, h2, hm, h3, hu, hne']

/-- A bind to the region the buffer memory is already bound to, validation
passing: `TRUE`, nothing changes. -/
theorem bind_of_same (env : Env) (w : World) (buf_mem : GstVulkanBufferMemory)
    (memory : Nat) (hb : buf_mem.vk_mem = memory)
    (h : bind_validation w buf_mem memory = true) :
    gst_vulkan_buffer_memory_bind env w buf_mem memory = (true, buf_mem, w) := by
  obtain ⟨h1, h2, m, hm, h3⟩ := (bind_validation_iff w buf_mem memory).1 h
  unfold gst_vulkan_buffer_memory_bind
  simp [h1, h2, hm, h3, hb]

/-- Taking a reference on the region at `memory` adds one to its count. -/
theorem refcount_gst_memory_ref (w : World) (memory : Nat) :
    (gst_memory_ref w memory).refcount memory = (w.refcount memory).map (fun n => n + 1) := by
  unfold gst_memory_ref World.refcount World.emit World.setRefcount
  cases h : w.memories memory <;> simp [h]

/-- Dropping a reference on the region at `memory` takes one from its count. -/
theorem refcount_gst_memory_unref (w : World) (memory : Nat) :
    (gst_memory_unref w memory).refcount memory = (w.refcount memory).map (fun n => n - 1) := by
  unfold gst_memory_unref World.refcount World.emit World.setRefcount
  cases h : w.memories memory <;> simp [h]

/-- Recording a call leaves every reference count as it is. -/
theorem refcount_emit (w : World) (e : Event) (p : Nat) :
    (w.emit e).refcount p = w.refcount p := rfl

/-- C1, binding exclusivity: when the buffer memory is already bound to the
region at `M1`, a bind to any other pointer `M2` (valid or not, `NULL` included)
returns `FALSE`, and both the buffer memory (still bound to `M1`) and the world
(no native bind call recorded, no reference count changed) are exactly as before. -/
theorem bind_exclusive (env : Env) (w : World) (R : GstVulkanBufferMemory) (M1 M2 : Nat)
    (hb : R.vk_mem = M1) (h1 : M1 ≠ 0) (hne : M2 ≠ M1) :
    gst_vulkan_buffer_memory_bind env w R M2 = (false, R, w) ∧
      (gst_vulkan_buffer_memory_bind env w R M2).2.1.vk_mem = M1 ∧
      (gst_vulkan_buffer_memory_bind env w R M2).2.2.trace = w.trace ∧
      (gst_vulkan_buffer_memory_bind env w R M2).2.2.refcount M2 = w.refcount M2 := by
  have key : gst_vulkan_buffer_memory_bind env w R M2 = (false, R, w) := by
    cases hv : bind_validation w R M2
    · exact bind_of_validation_false env w R M2 hv
    · obtain ⟨c1, c2, m, hm, c3⟩ := (bind_validation_iff w R M2).1 hv
      have hne' : ¬ (M1 = M2) := fun h0 => hne h0.symm
      unfold gst_vulkan_buffer_memory_bind
      simp [c1, c2, hm, c3, hb, hne', h1]
  rw [key]
  exact ⟨rfl, hb, rfl, rfl⟩

/-- C1 at a concrete input: a buffer memory bound to the region at `100` refuses
the valid region at `200`. -/
theorem bind_exclusive_witness :
    gst_vulkan_buffer_memory_bind mockEnv mockWorld (mockBuffer 100) 200
        = (false, mockBuffer 100, mockWorld) ∧
      (gst_vulkan_buffer_memory_bind mockEnv mockWorld (mockBuffer 100) 200).2.1.vk_mem = 100 ∧
      (gst_vulkan_buffer_memory_bind mockEnv mockWorld (mockBuffer 100) 200).2.2.trace
        = mockWorld.trace ∧
      (gst_vulkan_buffer_memory_bind mockEnv mockWorld (mockBuffer 100) 200).2.2.refcount 200
        = mockWorld.refcount 200 :=
  bind_exclusive mockEnv mockWorld (mockBuffer 100) 100 200 rfl (by decide) (by decide)

/-- C2, binding idempotence: for an unbound buffer memory and a pointer passing
bind validation, two binds in a row both return `TRUE`; the first records
exactly the native bind call and one reference on the region, the second
changes neither the buffer memory nor the world; afterwards the buffer memory
is bound to the region and the region holds exactly one reference more. -/
theorem bind_idempotent (env : Env) (w : World) (R : GstVulkanBufferMemory) (M : Nat)
    (hu : R.vk_mem = 0) (hv : bind_validation w R M = true) :
    (gst_vulkan_buffer_memory_bind env w R M).1 = true ∧
    (gst_vulkan_buffer_memory_bind env
      (gst_vulkan_buffer_memory_bind env w R M).2.2
      (gst_vulkan_buffer_memory_bind env w R M).2.1 M) =
        (true, (gst_vulkan_buffer_memory_bind env w R M).2.1,
          (gst_vulkan_buffer_memory_bind env w R M).2.2) ∧
    (gst_vulkan_buffer_memory_bind env w R M).2.1.vk_mem = M ∧
    (∃ m, w.memories M = some m ∧
      (gst_vulkan_buffer_memory_bind env w R M).2.2.trace = w.trace ++
        [Event.vkBindBufferMemory R.device R.buffer m.mem_ptr m.vk_offset,
         Event.gst_memory_ref M]) ∧
    (gst_vulkan_buffer_memory_bind env w R M).2.2.refcount M
      = (w.refcount M).map (fun n => n + 1) := by
  obtain ⟨c1, c2, m, hm, c3⟩ := (bind_validation_iff w R M).1 hv
  have first := bind_of_unbound env w R M m hu hm hv
  rw [first]
  refine ⟨rfl, ?_, rfl, ⟨m, hm, ?_⟩, ?_⟩
  · apply bind_of_same
    · rfl
    · apply (bind_validation_iff _ _ _).2
      refine ⟨c1, ?_, ?_⟩
      · have hne : M ≠ 0 := by
          intro h0
          simp [gst_is_vulkan_memory, h0] at c2
        simp [gst_is_vulkan_memory, hne, hm] at c2
        simp [gst_is_vulkan_memory, hne, gst_memory_ref, World.emit, World.setRefcount, hm, c2]
      · refine ⟨{ m with mem := { m.mem with refcount := m.mem.refcount + 1 } }, ?_, ?_⟩
        · simp [gst_memory_ref, World.emit, World.setRefcount, hm]
        · simpa [bind_fits, gst_memory_get_sizes] using c3
  · simp [gst_memory_ref, World.emit, World.setRefcount]
  · simp only []
    rw [refcount_gst_memory_ref, refcount_emit]

/-- C2 at a concrete input: the unbound mock buffer memory bound twice to the
region at `100`. -/
theorem bind_idempotent_witness :
    (gst_vulkan_buffer_memory_bind mockEnv mockWorld (mockBuffer 0) 100).1 = true ∧
    (gst_vulkan_buffer_memory_bind mockEnv
      (gst_vulkan_buffer_memory_bind mockEnv mockWorld (mockBuffer 0) 100).2.2
      (gst_vulkan_buffer_memory_bind mockEnv mockWorld (mockBuffer 0) 100).2.1 100) =
        (true, (gst_vulkan_buffer_memory_bind mockEnv mockWorld (mockBuffer 0) 100).2.1,
          (gst_vulkan_buffer_memory_bind mockEnv mockWorld (mockBuffer 0) 100).2.2) ∧
    (gst_vulkan_buffer_memory_bind mockEnv mockWorld (mockBuffer 0) 100).2.1.vk_mem = 100 ∧
    (∃ m, mockWorld.memories 100 = some m ∧
      (gst_vulkan_buffer_memory_bind mockEnv mockWorld (mockBuffer 0) 100).2.2.trace
        = mockWorld.trace ++
          [Event.vkBindBufferMemory (mockBuffer 0).device (mockBuffer 0).buffer m.mem_ptr
            m.vk_offset,
           Event.gst_memory_ref 100]) ∧
    (gst_vulkan_buffer_memory_bind mockEnv mockWorld (mockBuffer 0) 100).2.2.refcount 100
      = (mockWorld.refcount 100).map (fun n => n + 1) :=
  bind_idempotent mockEnv mockWorld (mockBuffer 0) 100 rfl (by decide)

/-- C3, evaluated where the capacity guard is defeated: the region at `100` has
offset 16 and capacity 4096, the buffer memory requires `2 ^ 64 - 8` bytes, so
offset plus size exceeds the capacity over the integers; the 64-bit sum wraps to
8, and bind returns `TRUE`, issues the native bind call, takes a reference on
the region and stores it as the bound memory. -/
theorem bind_capacity_guard_wraps :
    (∃ m, smallWorld.memories 100 = some m ∧
      m.vk_offset + hugeBuffer.requirements.size > m.mem.maxsize) ∧
    hugeBuffer.vk_mem = 0 ∧ smallWorld.refcount 100 = some 1 ∧
    (gst_vulkan_buffer_memory_bind mockEnv smallWorld hugeBuffer 100).1 = true ∧
    (gst_vulkan_buffer_memory_bind mockEnv smallWorld hugeBuffer 100).2.1.vk_mem = 100 ∧
    (gst_vulkan_buffer_memory_bind mockEnv smallWorld hugeBuffer 100).2.2.refcount 100
      = some 2 ∧
    (gst_vulkan_buffer_memory_bind mockEnv smallWorld hugeBuffer 100).2.2.trace
      = [Event.vkBindBufferMemory 1 11 55 16, Event.gst_memory_ref 100] := by
  refine ⟨⟨mockRegion 55 16 4096, rfl, by decide⟩, rfl, rfl, ?_, ?_, ?_, ?_⟩ <;> decide

/-- C10, the native result is not consulted: for an unbound buffer memory and a
pointer passing bind validation, two runs on devices that may answer the native
bind call (and everything else) differently return the same triple: `TRUE`, the
buffer memory bound to the region, and the region holding one reference more. -/
theorem bind_ignores_native_result (env1 env2 : Env) (w : World)
    (R : GstVulkanBufferMemory) (M : Nat)
    (hu : R.vk_mem = 0) (hv : bind_validation w R M = true) :
    gst_vulkan_buffer_memory_bind env1 w R M = gst_vulkan_buffer_memory_bind env2 w R M ∧
    (gst_vulkan_buffer_memory_bind env1 w R M).1 = true ∧
    (gst_vulkan_buffer_memory_bind env1 w R M).2.1.vk_mem = M ∧
    (gst_vulkan_buffer_memory_bind env1 w R M).2.2.refcount M
      = (w.refcount M).map (fun n => n + 1) := by
  obtain ⟨_, _, m, hm, _⟩ := (bind_validation_iff w R M).1 hv
  rw [bind_of_unbound env1 w R M m hu hm hv, bind_of_unbound env2 w R M m hu hm hv]
  refine ⟨rfl, rfl, rfl, ?_⟩
  simp only []
  rw [refcount_gst_memory_ref, refcount_emit]

/-- C10 at a concrete input: the native bind call answering success (`0`) in one
run and `VK_ERROR_OUT_OF_DEVICE_MEMORY` (`-2`) in the other. -/
theorem bind_ignores_native_result_witness :
    gst_vulkan_buffer_memory_bind mockEnv mockWorld (mockBuffer 0) 200
      = gst_vulkan_buffer_memory_bind
          { mockEnv with vkBindBufferMemory := fun _ _ _ _ => -2 } mockWorld (mockBuffer 0) 200 ∧
    (gst_vulkan_buffer_memory_bind mockEnv mockWorld (mockBuffer 0) 200).1 = true ∧
    (gst_vulkan_buffer_memory_bind mockEnv mockWorld (mockBuffer 0) 200).2.1.vk_mem = 200 ∧
    (gst_vulkan_buffer_memory_bind mockEnv mockWorld (mockBuffer 0) 200).2.2.refcount 200
      = (mockWorld.refcount 200).map (fun n => n + 1) :=
  bind_ignores_native_result mockEnv { mockEnv with vkBindBufferMemory := fun _ _ _ _ => -2 }
    mockWorld (mockBuffer 0) 200 rfl (by decide)

/-! ## Map -/

/-- C5, map succeeds exactly when bound. Unbound: `NULL`, map info and world
untouched (no call to any region). Bound to the region at `vk_mem`: the region's
map is called once, with the caller's flags and a new per-call token, which is
stored in `user_data[0]`; when that map fails the result is `NULL` and the token
is released, otherwise the result is the data address the region's map produced. -/
theorem map_full_when_bound (env : Env) (w : World) (R : GstVulkanBufferMemory)
    (info : GstMapInfo) (size : Nat) :
    (R.vk_mem = 0 → _vk_buffer_mem_map_full env w R info size = (0, info, w)) ∧
    (R.vk_mem ≠ 0 →
      (_vk_buffer_mem_map_full env w R info size).2.1
        = { flags := info.flags, user_data0 := env.g_new0 w.trace } ∧
      (_vk_buffer_mem_map_full env w R info size).2.2.memories = w.memories ∧
      (env.gst_memory_map w.trace R.vk_mem info.flags = none →
        (_vk_buffer_mem_map_full env w R info size).1 = 0 ∧
        (_vk_buffer_mem_map_full env w R info size).2.2.trace = w.trace ++
          [Event.gst_memory_map R.vk_mem (env.g_new0 w.trace) info.flags,
           Event.g_free (env.g_new0 w.trace)]) ∧
      (∀ data, env.gst_memory_map w.trace R.vk_mem info.flags = some data →
        (_vk_buffer_mem_map_full env w R info size).1 = data ∧
        (_vk_buffer_mem_map_full env w R info size).2.2.trace = w.trace ++
          [Event.gst_memory_map R.vk_mem (env.g_new0 w.trace) info.flags])) := by
  refine ⟨fun hu => ?_, fun hb => ?_⟩
  · simp [_vk_buffer_mem_map_full, hu]
  · unfold _vk_buffer_mem_map_full
    cases hmap : env.gst_memory_map w.trace R.vk_mem info.flags <;>
      simp [hb, hmap, World.emit]

/-- C5 at concrete inputs: the unbound mock buffer memory maps to `NULL` with no
call recorded, and the one bound to the region at `100` maps to the address
`4242` the region's map answers, the token `900` stored in `user_data[0]`. -/
theorem map_full_when_bound_witness :
    _vk_buffer_mem_map_full mockEnv mockWorld (mockBuffer 0) mockInfo 4096
      = (0, mockInfo, mockWorld) ∧
    (_vk_buffer_mem_map_full mockEnv mockWorld (mockBuffer 100) mockInfo 4096).1 = 4242 ∧
    (_vk_buffer_mem_map_full mockEnv mockWorld (mockBuffer 100) mockInfo 4096).2.1
      = { flags := 3, user_data0 := 900 } ∧
    (_vk_buffer_mem_map_full mockEnv mockWorld (mockBuffer 100) mockInfo 4096).2.2.trace
      = [Event.gst_memory_map 100 900 3] := by
  have h := map_full_when_bound mockEnv mockWorld (mockBuffer 100) mockInfo 4096
  have h0 := map_full_when_bound mockEnv mockWorld (mockBuffer 0) mockInfo 4096
  have hb := h.2 (by decide)
  have hs := hb.2.2.2 4242 rfl
  exact ⟨h0.1 rfl, hs.1, hb.1, hs.2⟩

/-! ## Teardown -/

/-- C6, teardown order: the calls `_vk_buffer_mem_free` adds are, in this order,
the destruction of the native buffer (only for a non-null handle of a resource
that is not wrapped), the release of one reference on the bound region (only
when one is bound), the release callback on the stored payload (only when a
callback is set), and the release of the device reference (always). A wrapped
resource never destroys a buffer; only the bound region loses a reference, and
exactly one; the payload and callback are the ones given at construction. -/
theorem free_effects (w : World) (R : GstVulkanBufferMemory) :
    (_vk_buffer_mem_free w R).trace = w.trace ++
      ((if R.buffer ≠ 0 ∧ R.wrapped = false then
          [Event.vkDestroyBuffer R.device R.buffer] else []) ++
       (if R.vk_mem ≠ 0 then [Event.gst_memory_unref R.vk_mem] else []) ++
       (if R.notify ≠ 0 then [Event.notify R.notify R.user_data] else []) ++
       [Event.gst_object_unref R.device]) ∧
    (R.wrapped = true → ∀ d b,
      Event.vkDestroyBuffer d b ∉ (_vk_buffer_mem_free { w with trace := [] } R).trace) ∧
    (∀ p, (_vk_buffer_mem_free w R).refcount p =
      if p = R.vk_mem ∧ R.vk_mem ≠ 0 then (w.refcount p).map (fun n => n - 1)
      else w.refcount p) ∧
    (∀ (env : Env) (w0 : World) (device buffer format usage user_data notify : Nat),
      (gst_vulkan_buffer_memory_wrapped env w0 device buffer format usage user_data
          notify).1.user_data = user_data ∧
      (gst_vulkan_buffer_memory_wrapped env w0 device buffer format usage user_data
          notify).1.notify = notify ∧
      (gst_vulkan_buffer_memory_wrapped env w0 device buffer format usage user_data
          notify).1.wrapped = true) := by
  refine ⟨?_, ?_, ?_, ?_⟩
  · unfold _vk_buffer_mem_free
    by_cases h1 : R.buffer ≠ 0 ∧ R.wrapped = false <;>
    by_cases h2 : R.vk_mem ≠ 0 <;>
    by_cases h3 : R.notify ≠ 0 <;>
    simp [h1, h2, h3, World.emit, gst_memory_unref, World.setRefcount]
  · intro hw d b
    unfold _vk_buffer_mem_free
    by_cases h2 : R.vk_mem ≠ 0 <;>
    by_cases h3 : R.notify ≠ 0 <;>
    simp [hw, h2, h3, World.emit, gst_memory_unref, World.setRefcount]
  · intro p
    unfold _vk_buffer_mem_free
    by_cases h1 : R.buffer ≠ 0 ∧ R.wrapped = false <;>
    by_cases h2 : R.vk_mem ≠ 0 <;>
    by_cases h3 : R.notify ≠ 0 <;>
    by_cases h4 : p = R.vk_mem <;>
    cases h5 : w.memories p <;>
    simp [h1, h2, h3, h4, h5, World.emit, gst_memory_unref, World.setRefcount,
      World.refcount] <;>
    simp_all
  · intro env w0 device buffer format usage user_data notify
    exact ⟨rfl, rfl, rfl⟩

/-! ## Construction -/

/-- What a successful `gst_vulkan_buffer_memory_alloc` returns, field by field. -/
theorem alloc_eq_some (env : Env) (w : World) (device format n usage props : Nat)
    (m : GstVulkanBufferMemory) (w1 : World)
    (h : gst_vulkan_buffer_memory_alloc env w device format n usage props = (some m, w1)) :
    0 ≤ (env.vkCreateBuffer device n usage).1 ∧
    m = { mem := { refcount := 1, flags := 0, allocator := env.allocator,
                   maxsize :=
                     ((env.vkGetBufferMemoryRequirements device
                        (env.vkCreateBuffer device n usage).2).size +
                      (env.gst_memory_alignment |||
                        (env.vkGetBufferMemoryRequirements device
                          (env.vkCreateBuffer device n usage).2).alignment)) % WORD,
                   align := env.gst_memory_alignment |||
                     (env.vkGetBufferMemoryRequirements device
                       (env.vkCreateBuffer device n usage).2).alignment,
                   offset := 0,
                   size := (env.vkGetBufferMemoryRequirements device
                     (env.vkCreateBuffer device n usage).2).size },
          device := device, buffer := (env.vkCreateBuffer device n usage).2, vk_mem := 0,
          requirements := env.vkGetBufferMemoryRequirements device
            (env.vkCreateBuffer device n usage).2,
          wrapped := false, notify := 0, user_data := 0 } ∧
    w1.memories = w.memories ∧
    w1.trace = w.trace ++
      [Event.vkCreateBuffer device n usage,
       Event.vkGetBufferMemoryRequirements device (env.vkCreateBuffer device n usage).2,
       Event.gst_object_ref device] := by
  unfold gst_vulkan_buffer_memory_alloc _vk_buffer_mem_new_alloc at h
  simp only [_create_info_from_args, gst_vulkan_error_to_g_error] at h
  by_cases herr : (env.vkCreateBuffer device n usage).1 < 0
  · simp [herr] at h
  · simp only [herr, if_false, Bool.true_eq_false, _vk_buffer_mem_init, gst_memory_init,
      g_new0_GstVulkanBufferMemory, World.emit, Prod.mk.injEq, Option.some.injEq] at h
    obtain ⟨hm, hw⟩ := h
    subst hm
    subst hw
    refine ⟨not_lt.1 herr, ?_, rfl, ?_⟩
    · simp
    · simp

/-- The factory `gst_vulkan_buffer_memory_alloc` fails exactly when buffer
creation reports a negative result code, and then only that call was made. -/
theorem alloc_eq_none (env : Env) (w : World) (device format n usage props : Nat)
    (h : (env.vkCreateBuffer device n usage).1 < 0) :
    gst_vulkan_buffer_memory_alloc env w device format n usage props
      = (none, w.emit (Event.vkCreateBuffer device n usage)) := by
  unfold gst_vulkan_buffer_memory_alloc _vk_buffer_mem_new_alloc
  simp [_create_info_from_args, gst_vulkan_error_to_g_error, h]

/-- The factory `gst_vulkan_buffer_memory_alloc` succeeds when buffer creation
reports a non-negative result code. -/
theorem alloc_isSome (env : Env) (w : World) (device format n usage props : Nat)
    (h : 0 ≤ (env.vkCreateBuffer device n usage).1) :
    ∃ m w1, gst_vulkan_buffer_memory_alloc env w device format n usage props = (some m, w1) := by
  unfold gst_vulkan_buffer_memory_alloc _vk_buffer_mem_new_alloc
  simp [_create_info_from_args, gst_vulkan_error_to_g_error, not_lt.2 h]

/-- C9, the queried requirements are the authoritative size: a buffer memory
returned by `gst_vulkan_buffer_memory_alloc` for a requested size `n` carries the
requirements `{s, a, ..}` the device reports for the new buffer, and its size is
`s`, its offset 0, its alignment `gst_memory_alignment | a`, its maxsize
`s + (gst_memory_alignment | a)` in `gsize` arithmetic (the plain sum when that
fits 64 bits), its flags 0, it is not wrapped and it is unbound; any other
successful call, whatever its requested size, that sees the same queried size
and alignment yields the same size, offset, alignment and maxsize. -/
theorem alloc_uses_queried_requirements (env : Env) (w : World)
    (device format n usage props : Nat) (m : GstVulkanBufferMemory) (w1 : World)
    (h : gst_vulkan_buffer_memory_alloc env w device format n usage props = (some m, w1)) :
    m.requirements =
      env.vkGetBufferMemoryRequirements device (env.vkCreateBuffer device n usage).2 ∧
    m.mem.size = m.requirements.size ∧
    m.mem.offset = 0 ∧
    m.mem.align = env.gst_memory_alignment ||| m.requirements.alignment ∧
    m.mem.maxsize =
      (m.requirements.size + (env.gst_memory_alignment ||| m.requirements.alignment)) % WORD ∧
    (m.requirements.size + (env.gst_memory_alignment ||| m.requirements.alignment) < WORD →
      m.mem.maxsize =
        m.requirements.size + (env.gst_memory_alignment ||| m.requirements.alignment)) ∧
    m.mem.flags = 0 ∧ m.wrapped = false ∧ m.vk_mem = 0 ∧
    (∀ (w2 : World) (format2 n2 usage2 props2 : Nat) (m2 : GstVulkanBufferMemory)
        (w3 : World),
      gst_vulkan_buffer_memory_alloc env w2 device format2 n2 usage2 props2 = (some m2, w3) →
      m2.requirements.size = m.requirements.size →
      m2.requirements.alignment = m.requirements.alignment →
      m2.mem.size = m.mem.size ∧ m2.mem.offset = m.mem.offset ∧
      m2.mem.align = m.mem.align ∧ m2.mem.maxsize = m.mem.maxsize) := by
  obtain ⟨_, hm, _, _⟩ := alloc_eq_some env w device format n usage props m w1 h
  refine ⟨?_, ?_, ?_, ?_, ?_, ?_, ?_, ?_, ?_, ?_⟩
  · rw [hm]
  · rw [hm]
  · rw [hm]
  · rw [hm]
  · rw [hm]
  · intro hlt
    have : m.mem.maxsize =
        (m.requirements.size + (env.gst_memory_alignment ||| m.requirements.alignment))
          % WORD := by rw [hm]
    rw [this, Nat.mod_eq_of_lt hlt]
  · rw [hm]
  · rw [hm]
  · rw [hm]
  · intro w2 format2 n2 usage2 props2 m2 w3 h2 hs ha
    obtain ⟨_, hm2, _, _⟩ := alloc_eq_some env w2 device format2 n2 usage2 props2 m2 w3 h2
    have e1 : m.mem.size = m.requirements.size := by rw [hm]
    have e2 : m2.mem.size = m2.requirements.size := by rw [hm2]
    have e3 : m.mem.offset = 0 := by rw [hm]
    have e4 : m2.mem.offset = 0 := by rw [hm2]
    have e5 : m.mem.align = env.gst_memory_alignment ||| m.requirements.alignment := by
      rw [hm]
    have e6 : m2.mem.align = env.gst_memory_alignment ||| m2.requirements.alignment := by
      rw [hm2]
    have e7 : m.mem.maxsize =
        (m.requirements.size + (env.gst_memory_alignment ||| m.requirements.alignment))
          % WORD := by rw [hm]
    have e8 : m2.mem.maxsize =
        (m2.requirements.size + (env.gst_memory_alignment ||| m2.requirements.alignment))
          % WORD := by rw [hm2]
    refine ⟨?_, ?_, ?_, ?_⟩
    · rw [e1, e2, hs]
    · rw [e3, e4]
    · rw [e5, e6, ha]
    · rw [e7, e8, hs, ha]

/-- C9 at a concrete input: 100 bytes requested from the mock device, which
reports `{4096, 256, 0x7}`: size 4096, alignment `7 | 256 = 263`, maxsize 4359. -/
theorem alloc_uses_queried_requirements_witness :
    (gst_vulkan_buffer_memory_alloc mockEnv World.empty 1 0 100 0 6).1 = some (mockBuffer 0) ∧
    (mockBuffer 0).mem.size = 4096 ∧ (mockBuffer 0).mem.align = 263 ∧
    (mockBuffer 0).mem.maxsize = 4359 ∧ (mockBuffer 0).mem.offset = 0 :=
  have h := alloc_uses_queried_requirements mockEnv World.empty 1 0 100 0 6 (mockBuffer 0)
    (gst_vulkan_buffer_memory_alloc mockEnv World.empty 1 0 100 0 6).2 rfl
  ⟨rfl, h.2.1, h.2.2.2.1, h.2.2.2.2.2.1 (by decide), h.2.2.1⟩

/-! ## Wrapped resources -/

/-- Bind validation reads the world only through its regions. -/
theorem bind_validation_congr (w w1 : World) (R : GstVulkanBufferMemory) (memory : Nat)
    (h : w1.memories = w.memories) :
    bind_validation w1 R memory = bind_validation w R memory := by
  unfold bind_validation gst_is_vulkan_memory
  rw [h]

/-- On an unbound buffer memory, a map, an unmap, or a bind whose validation
fails leaves the buffer memory and the regions as they are. -/
theorem apply_unbound (env : Env) (R : GstVulkanBufferMemory) (w : World) (op : Op)
    (hu : R.vk_mem = 0)
    (hop : ∀ memory, op = Op.bind memory → bind_validation w R memory = false) :
    (op.apply env (R, w)).1 = R ∧ (op.apply env (R, w)).2.memories = w.memories := by
  cases op with
  | bind memory =>
    simp only [Op.apply]
    rw [bind_of_validation_false env w R memory (hop memory rfl)]
    exact ⟨rfl, rfl⟩
  | map info size =>
    simp [Op.apply, _vk_buffer_mem_map_full, hu]
  | unmap info =>
    simp [Op.apply, _vk_buffer_mem_unmap_full, World.emit]

/-- A sequence of maps, unmaps and binds whose validation fails leaves an unbound
buffer memory as it is. -/
theorem runOps_unbound (env : Env) (R : GstVulkanBufferMemory) (w0 : World)
    (hu : R.vk_mem = 0) :
    ∀ (ops : List Op) (w : World), w.memories = w0.memories →
      (∀ memory, Op.bind memory ∈ ops → bind_validation w0 R memory = false) →
      (runOps env (R, w) ops).1 = R := by
  intro ops
  induction ops with
  | nil => intro w _ _; rfl
  | cons op rest ih =>
    intro w hw hops
    have hstep := apply_unbound env R w op hu (by
      intro memory hop
      rw [bind_validation_congr w0 w R memory hw]
      exact hops memory (by simp [hop]))
    have hshape : op.apply env (R, w) = (R, (op.apply env (R, w)).2) := by
      apply Prod.ext
      · exact hstep.1
      · rfl
    unfold runOps
    rw [List.foldl_cons, hshape]
    exact ih (op.apply env (R, w)).2 (hstep.2.trans hw)
      (fun memory hmem => hops memory (List.mem_cons_of_mem _ hmem))

/-- C4 as stated fails: the wrapped buffer memory made on the mock device is
unbound at first, one bind to the valid region at `100` binds it, and the map
that follows returns the address `4242` instead of `NULL`. -/
theorem wrapped_bound_by_bind :
    wrappedMock.1.wrapped = true ∧ wrappedMock.1.vk_mem = 0 ∧
    (runOps mockEnv wrappedMock [Op.bind 100]).1.vk_mem = 100 ∧
    (_vk_buffer_mem_map_full mockEnv (runOps mockEnv wrappedMock [Op.bind 100]).2
      (runOps mockEnv wrappedMock [Op.bind 100]).1 mockInfo 4096).1 = 4242 := by
  refine ⟨?_, ?_, ?_, ?_⟩ <;> decide

/-- C4 amended: a buffer memory made by `gst_vulkan_buffer_memory_wrapped` is
unbound, and after any sequence of maps, unmaps and binds in which no bind is
given a pointer passing bind validation it is still unbound and unchanged, and
the next map returns `NULL`. -/
theorem wrapped_unmappable_until_valid_bind (env : Env) (w : World)
    (device buffer format usage user_data notify : Nat) (ops : List Op)
    (info : GstMapInfo) (size : Nat)
    (hops : ∀ memory, Op.bind memory ∈ ops →
      bind_validation
        (gst_vulkan_buffer_memory_wrapped env w device buffer format usage user_data notify).2
        (gst_vulkan_buffer_memory_wrapped env w device buffer format usage user_data notify).1
        memory = false) :
    (gst_vulkan_buffer_memory_wrapped env w device buffer format usage user_data
      notify).1.wrapped = true ∧
    (runOps env
      (gst_vulkan_buffer_memory_wrapped env w device buffer format usage user_data notify)
      ops).1.vk_mem = 0 ∧
    (_vk_buffer_mem_map_full env
      (runOps env
        (gst_vulkan_buffer_memory_wrapped env w device buffer format usage user_data notify)
        ops).2
      (runOps env
        (gst_vulkan_buffer_memory_wrapped env w device buffer format usage user_data notify)
        ops).1 info size).1 = 0 := by
  have hu : (gst_vulkan_buffer_memory_wrapped env w device buffer format usage user_data
      notify).1.vk_mem = 0 := rfl
  have hrun := runOps_unbound env
    (gst_vulkan_buffer_memory_wrapped env w device buffer format usage user_data notify).1
    (gst_vulkan_buffer_memory_wrapped env w device buffer format usage user_data notify).2
    hu ops
    (gst_vulkan_buffer_memory_wrapped env w device buffer format usage user_data notify).2
    rfl hops
  have hrun2 : (runOps env
      (gst_vulkan_buffer_memory_wrapped env w device buffer format usage user_data notify)
      ops).1.vk_mem = 0 := by
    have : (runOps env
      (gst_vulkan_buffer_memory_wrapped env w device buffer format usage user_data notify)
      ops).1 = (gst_vulkan_buffer_memory_wrapped env w device buffer format usage user_data
        notify).1 := hrun
    rw [this]
    exact hu
  refine ⟨rfl, hrun2, ?_⟩
  simp [_vk_buffer_mem_map_full, hrun2]

/-- C4 amended, at a concrete input: the wrapped mock buffer memory after a map,
an unmap, a bind to `NULL` and a bind to an address where no region lives. -/
theorem wrapped_unmappable_until_valid_bind_witness :
    wrappedMock.1.wrapped = true ∧
    (runOps mockEnv wrappedMock
      [Op.map mockInfo 4096, Op.unmap mockInfo, Op.bind 0, Op.bind 300]).1.vk_mem = 0 ∧
    (_vk_buffer_mem_map_full mockEnv
      (runOps mockEnv wrappedMock
        [Op.map mockInfo 4096, Op.unmap mockInfo, Op.bind 0, Op.bind 300]).2
      (runOps mockEnv wrappedMock
        [Op.map mockInfo 4096, Op.unmap mockInfo, Op.bind 0, Op.bind 300]).1
      mockInfo 4096).1 = 0 :=
  wrapped_unmappable_until_valid_bind mockEnv mockWorld 1 11 0 0 77 88
    [Op.map mockInfo 4096, Op.unmap mockInfo, Op.bind 0, Op.bind 300] mockInfo 4096
    (by
      intro memory hmem
      simp only [List.mem_cons, Op.bind.injEq, List.mem_singleton, List.not_mem_nil,
        or_false, false_or, reduceCtorEq] at hmem
      rcases hmem with h | h <;> subst h <;> decide)

/-! ## Allocate and bind -/

/-- C7, the success path of allocate-and-bind: when buffer creation, memory-type
selection, region allocation and bind validation all succeed, with queried
requirements `{s, a, t}`, the function asks for a memory type with
`(t, mem_prop_flags)`, allocates the region with the selected type index, the
alignment mask `a - 1` (in `gsize` arithmetic, the plain `a - 1` for `1 ≤ a`),
the size `s` and the caller's flags, binds, and returns the buffer memory, which
holds one reference and is bound to that region; the region ends with exactly
one reference, the one bind took (the local one was released last). The calls
made are exactly the eight listed, in this order. -/
theorem alloc_bind_success (env : Env) (w : World)
    (device format size usage props : Nat)
    (hs : alloc_bind_steps_succeed env device size usage props = true) :
    ∃ m type_idx region,
      (gst_vulkan_buffer_memory_alloc_bind env w device format size usage props).ret = some m ∧
      m.requirements =
        env.vkGetBufferMemoryRequirements device (env.vkCreateBuffer device size usage).2 ∧
      env.find_memory_type_index device m.requirements.memoryTypeBits props = some type_idx ∧
      env.gst_vulkan_memory_alloc device type_idx
          ((m.requirements.alignment + WORD - 1) % WORD) m.requirements.size props
        = ((gst_vulkan_buffer_memory_alloc_bind env w device format size usage props).dev_mem,
            region) ∧
      (gst_vulkan_buffer_memory_alloc_bind env w device format size usage props).dev_mem ≠ 0 ∧
      m.vk_mem =
        (gst_vulkan_buffer_memory_alloc_bind env w device format size usage props).dev_mem ∧
      m.mem.refcount = 1 ∧
      (gst_vulkan_buffer_memory_alloc_bind env w device format size usage props).world.refcount
          m.vk_mem = some 1 ∧
      (gst_vulkan_buffer_memory_alloc_bind env w device format size usage props).world.trace
        = w.trace ++
          [Event.vkCreateBuffer device size usage,
           Event.vkGetBufferMemoryRequirements device m.buffer,
           Event.gst_object_ref device,
           Event.find_memory_type_index device m.requirements.memoryTypeBits props,
           Event.gst_vulkan_memory_alloc device type_idx
             ((m.requirements.alignment + WORD - 1) % WORD) m.requirements.size props,
           Event.vkBindBufferMemory device m.buffer region.mem_ptr region.vk_offset,
           Event.gst_memory_ref m.vk_mem,
           Event.gst_memory_unref m.vk_mem] ∧
      (1 ≤ m.requirements.alignment → m.requirements.alignment < WORD →
        (m.requirements.alignment + WORD - 1) % WORD = m.requirements.alignment - 1) := by
  unfold alloc_bind_steps_succeed at hs
  simp only [Bool.and_eq_true, decide_eq_true_eq] at hs
  obtain ⟨hc, hrest⟩ := hs
  cases hfind : env.find_memory_type_index device
      (env.vkGetBufferMemoryRequirements device
        (env.vkCreateBuffer device size usage).2).memoryTypeBits props with
  | none => simp [hfind] at hrest
  | some type_idx =>
    simp only [hfind, Bool.and_eq_true, decide_eq_true_eq] at hrest
    obtain ⟨⟨⟨hptr, hinit⟩, hvm⟩, hfit⟩ := hrest
    obtain ⟨m, w1, ha⟩ := alloc_isSome env w device format size usage props hc
    obtain ⟨_, hm, hw1m, hw1t⟩ := alloc_eq_some env w device format size usage props m w1 ha
    have hreq : m.requirements = env.vkGetBufferMemoryRequirements device
        (env.vkCreateBuffer device size usage).2 := by rw [hm]
    have hbuf : m.buffer = (env.vkCreateBuffer device size usage).2 := by rw [hm]
    have hal : m.mem.allocator = env.allocator := by rw [hm]
    have hvk : m.vk_mem = 0 := by rw [hm]
    have hdev : m.device = device := by rw [hm]
    have hrc : m.mem.refcount = 1 := by rw [hm]
    rw [← hreq] at hfind hptr hvm hfit
    generalize hr : env.gst_vulkan_memory_alloc device type_idx
      ((m.requirements.alignment + WORD - 1) % WORD) m.requirements.size props = r
      at hptr hvm hfit
    obtain ⟨ptr, region⟩ := r
    simp only at hptr hvm hfit
    obtain ⟨w2, hd, hw2m, hw2t⟩ : ∃ w2, gst_vulkan_memory_alloc env
        (w1.emit (Event.find_memory_type_index device m.requirements.memoryTypeBits props))
        device type_idx ((m.requirements.alignment + WORD - 1) % WORD) m.requirements.size
        props = (ptr, w2) ∧
        w2.memories ptr = some { region with mem := { region.mem with refcount := 1 } } ∧
        w2.trace = w1.trace ++
          [Event.find_memory_type_index device m.requirements.memoryTypeBits props,
           Event.gst_vulkan_memory_alloc device type_idx
             ((m.requirements.alignment + WORD - 1) % WORD) m.requirements.size props] := by
      refine ⟨(gst_vulkan_memory_alloc env
        (w1.emit (Event.find_memory_type_index device m.requirements.memoryTypeBits props))
        device type_idx ((m.requirements.alignment + WORD - 1) % WORD) m.requirements.size
        props).2, ?_, ?_, ?_⟩
      · simp [gst_vulkan_memory_alloc, hr, hptr]
      · simp [gst_vulkan_memory_alloc, hr, hptr]
      · simp [gst_vulkan_memory_alloc, hr, hptr, World.emit]
    have hval : bind_validation w2 m ptr = true := by
      apply (bind_validation_iff _ _ _).2
      refine ⟨?_, ?_, _, hw2m, ?_⟩
      · simp [gst_is_vulkan_buffer_memory, hal, hinit]
      · simp [gst_is_vulkan_memory, hptr, hw2m, hvm]
      · simpa [bind_fits, gst_memory_get_sizes] using hfit
    have hbind := bind_of_unbound env w2 m ptr _ hvk hw2m hval
    have hres : gst_vulkan_buffer_memory_alloc_bind env w device format size usage props
        = { ret := some { m with vk_mem := ptr }, mem := some { m with vk_mem := ptr },
            dev_mem := ptr,
            world := gst_memory_unref (gst_memory_ref
              (w2.emit (Event.vkBindBufferMemory m.device m.buffer region.mem_ptr
                region.vk_offset)) ptr) ptr } := by
      simp only [gst_vulkan_buffer_memory_alloc_bind, ha, hfind, hd, hptr, hbind, if_false,
        Bool.true_eq_false]
    rw [hres]
    refine ⟨{ m with vk_mem := ptr }, type_idx, region, rfl, hreq, hfind, hr, hptr, rfl,
      hrc, ?_, ?_, ?_⟩
    · simp only []
      rw [refcount_gst_memory_unref, refcount_gst_memory_ref, refcount_emit]
      simp [World.refcount, hw2m]
    · simp [gst_memory_unref, gst_memory_ref, World.emit, World.setRefcount, hw2t, hw1t,
        hdev]
      exact hbuf.symm
    · intro h1 h2
      unfold WORD at h2 ⊢
      omega

/-- C7 at the concrete scenario: requirements `{4096, 256, 0x7}`, property flags
matched by type index 2 only: the region is requested with type index 2,
alignment mask 255 and size 4096, and ends with one reference. -/
theorem alloc_bind_success_witness :
    alloc_bind_steps_succeed mockEnv 1 4096 0 6 = true ∧
    (∃ m, (gst_vulkan_buffer_memory_alloc_bind mockEnv World.empty 1 0 4096 0 6).ret = some m ∧
      m.vk_mem = 100 ∧ m.mem.refcount = 1) ∧
    (gst_vulkan_buffer_memory_alloc_bind mockEnv World.empty 1 0 4096 0 6).world.trace
      = [Event.vkCreateBuffer 1 4096 0,
         Event.vkGetBufferMemoryRequirements 1 11,
         Event.gst_object_ref 1,
         Event.find_memory_type_index 1 7 6,
         Event.gst_vulkan_memory_alloc 1 2 255 4096 6,
         Event.vkBindBufferMemory 1 11 55 0,
         Event.gst_memory_ref 100,
         Event.gst_memory_unref 100] ∧
    (gst_vulkan_buffer_memory_alloc_bind mockEnv World.empty 1 0 4096 0 6).world.refcount 100
      = some 1 := by
  obtain ⟨m, _, _, hret, _, _, _, _, hvk, hrc, _, _, _⟩ :=
    alloc_bind_success mockEnv World.empty 1 0 4096 0 6 (by decide)
  refine ⟨by decide, ⟨m, hret, ?_, hrc⟩, by decide, by decide⟩
  rw [hvk]
  decide

/-- Dropping the only reference of an unbound, not wrapped buffer memory of the
buffer allocator that has no release callback: the count reaches zero and the
teardown destroys the native buffer (when the handle is not null) and releases
the device reference; no region is touched. -/
theorem unref_buffer_last (w : World) (m : GstVulkanBufferMemory)
    (hrc : m.mem.refcount = 1)
    (hal : m.mem.allocator = some GType.vulkanBufferMemoryAllocator)
    (hvk : m.vk_mem = 0) (hn : m.notify = 0) (hw : m.wrapped = false) :
    (gst_memory_unref_buffer w m).1.mem.refcount = 0 ∧
    (gst_memory_unref_buffer w m).1.vk_mem = 0 ∧
    (gst_memory_unref_buffer w m).1.buffer = m.buffer ∧
    (gst_memory_unref_buffer w m).1.device = m.device ∧
    (gst_memory_unref_buffer w m).2.memories = w.memories ∧
    (gst_memory_unref_buffer w m).2.trace = w.trace ++
      ((if m.buffer ≠ 0 then [Event.vkDestroyBuffer m.device m.buffer] else []) ++
        [Event.gst_object_unref m.device]) := by
  unfold gst_memory_unref_buffer _vk_buffer_mem_free
  by_cases hb : m.buffer ≠ 0 <;>
    simp [hrc, hal, hvk, hn, hw, hb, World.emit]




/-- The resource part of a failed allocate-and-bind: after `pre` was recorded,
dropping the only reference of the new buffer memory brings its count to zero,
destroys its native buffer and releases the device reference, and touches no
region. -/
theorem released_after_unref (w w1 : World) (m : GstVulkanBufferMemory) (pre : List Event)
    (device buf : Nat)
    (hrc : m.mem.refcount = 1)
    (hal : m.mem.allocator = some GType.vulkanBufferMemoryAllocator)
    (hvk : m.vk_mem = 0) (hn : m.notify = 0) (hw : m.wrapped = false)
    (hdev : m.device = device) (hbuf : m.buffer = buf)
    (ht : w1.trace = w.trace ++ pre) :
    (gst_memory_unref_buffer w1 m).2.memories = w1.memories ∧
    ∃ evs, (gst_memory_unref_buffer w1 m).2.trace = w.trace ++ evs ∧
      (gst_memory_unref_buffer w1 m).1.mem.refcount = 0 ∧
      (gst_memory_unref_buffer w1 m).1.vk_mem = 0 ∧
      (gst_memory_unref_buffer w1 m).1.buffer = buf ∧
      ((gst_memory_unref_buffer w1 m).1.buffer ≠ 0 →
        Event.vkDestroyBuffer device (gst_memory_unref_buffer w1 m).1.buffer ∈ evs) ∧
      Event.gst_object_unref device ∈ evs := by
  obtain ⟨u1, u2, u3, _, u5, u6⟩ := unref_buffer_last w1 m hrc hal hvk hn hw
  refine ⟨u5, pre ++ ((if m.buffer ≠ 0 then [Event.vkDestroyBuffer m.device m.buffer] else [])
    ++ [Event.gst_object_unref m.device]), ?_, u1, u2, u3.trans hbuf, ?_, ?_⟩
  · rw [u6, ht, List.append_assoc]
  · intro hb
    rw [u3] at hb ⊢
    simp [hb, hdev]
  · simp [hdev]




/-- C8, no partial state after a failed allocate-and-bind: once the allocator
is set up (`gst_vulkan_buffer_memory_init_once`), whenever one of the steps
fails the function returns `NULL`; no buffer memory was built only when buffer
creation itself failed; a buffer memory that was built ends with reference count
zero and unbound, its teardown having destroyed the native buffer (for a non-null
handle) and released the device reference among the calls made; and a region
that was allocated ends with reference count zero. -/
theorem alloc_bind_failure_releases (env : Env) (w : World)
    (device format size usage props : Nat)
    (hinit : env.allocator = some GType.vulkanBufferMemoryAllocator)
    (hf : alloc_bind_steps_succeed env device size usage props = false) :
    (gst_vulkan_buffer_memory_alloc_bind env w device format size usage props).ret = none ∧
    ((gst_vulkan_buffer_memory_alloc_bind env w device format size usage props).mem = none ↔
      (env.vkCreateBuffer device size usage).1 < 0) ∧
    ∃ evs,
      (gst_vulkan_buffer_memory_alloc_bind env w device format size usage props).world.trace
        = w.trace ++ evs ∧
      (∀ m, (gst_vulkan_buffer_memory_alloc_bind env w device format size usage props).mem
          = some m →
        m.mem.refcount = 0 ∧ m.vk_mem = 0 ∧
        m.buffer = (env.vkCreateBuffer device size usage).2 ∧
        (m.buffer ≠ 0 → Event.vkDestroyBuffer device m.buffer ∈ evs) ∧
        Event.gst_object_unref device ∈ evs) ∧
      ((gst_vulkan_buffer_memory_alloc_bind env w device format size usage props).dev_mem ≠ 0 →
        (gst_vulkan_buffer_memory_alloc_bind env w device format size usage props).world.refcount
          (gst_vulkan_buffer_memory_alloc_bind env w device format size usage props).dev_mem
          = some 0) := by
  by_cases hc : (env.vkCreateBuffer device size usage).1 < 0
  · have ha := alloc_eq_none env w device format size usage props hc
    have hres : gst_vulkan_buffer_memory_alloc_bind env w device format size usage props
        = { ret := none, mem := none, dev_mem := 0,
            world := w.emit (Event.vkCreateBuffer device size usage) } := by
      simp only [gst_vulkan_buffer_memory_alloc_bind, ha]
    rw [hres]
    refine ⟨rfl, ⟨fun _ => hc, fun _ => rfl⟩, [Event.vkCreateBuffer device size usage], rfl,
      ?_, ?_⟩
    · intro m hm
      cases hm
    · intro h0
      exact absurd rfl h0
  · have hc0 : 0 ≤ (env.vkCreateBuffer device size usage).1 := not_lt.1 hc
    obtain ⟨m, w1, ha⟩ := alloc_isSome env w device format size usage props hc0
    obtain ⟨_, hm, hw1m, hw1t⟩ := alloc_eq_some env w device format size usage props m w1 ha
    have hreq : m.requirements = env.vkGetBufferMemoryRequirements device
        (env.vkCreateBuffer device size usage).2 := by rw [hm]
    have hbuf : m.buffer = (env.vkCreateBuffer device size usage).2 := by rw [hm]
    have hal : m.mem.allocator = some GType.vulkanBufferMemoryAllocator := by
      rw [← hinit, hm]
    have hvk : m.vk_mem = 0 := by rw [hm]
    have hdev : m.device = device := by rw [hm]
    have hrc : m.mem.refcount = 1 := by rw [hm]
    have hnot : m.notify = 0 := by rw [hm]
    have hwr : m.wrapped = false := by rw [hm]
    unfold alloc_bind_steps_succeed at hf
    simp only [hc0, decide_True, Bool.true_and] at hf
    rw [← hreq] at hf
    cases hfind : env.find_memory_type_index device m.requirements.memoryTypeBits props with
    | none =>
      have hres : gst_vulkan_buffer_memory_alloc_bind env w device format size usage props
          = { ret := none,
              mem := some (gst_memory_unref_buffer
                (w1.emit (Event.find_memory_type_index device m.requirements.memoryTypeBits
                  props)) m).1,
              dev_mem := 0,
              world := (gst_memory_unref_buffer
                (w1.emit (Event.find_memory_type_index device m.requirements.memoryTypeBits
                  props)) m).2 } := by
        simp only [gst_vulkan_buffer_memory_alloc_bind, ha, hfind]
      obtain ⟨_, evs, r1, r2, r3, r4, r5, r6⟩ := released_after_unref w
        (w1.emit (Event.find_memory_type_index device m.requirements.memoryTypeBits props))
        m ([Event.vkCreateBuffer device size usage,
            Event.vkGetBufferMemoryRequirements device (env.vkCreateBuffer device size usage).2,
            Event.gst_object_ref device] ++
           [Event.find_memory_type_index device m.requirements.memoryTypeBits props])
        device _ hrc hal hvk hnot hwr hdev hbuf
        (by simp only [World.emit, hw1t, List.append_assoc])
      rw [hres]
      refine ⟨rfl, ⟨fun h => Option.noConfusion h, fun h => absurd h hc⟩, evs, r1, ?_, ?_⟩
      · intro m1 hm1
        cases hm1
        exact ⟨r2, r3, r4, r5, r6⟩
      · intro h0
        exact absurd rfl h0
    | some type_idx =>
      simp only [hfind, hinit, decide_True, Bool.and_true] at hf
      generalize hr : env.gst_vulkan_memory_alloc device type_idx
        ((m.requirements.alignment + WORD - 1) % WORD) m.requirements.size props = r at hf
      obtain ⟨ptr, region⟩ := r
      simp only at hf
      by_cases hptr : ptr = 0
      · have hd : gst_vulkan_memory_alloc env
            (w1.emit (Event.find_memory_type_index device m.requirements.memoryTypeBits props))
            device type_idx ((m.requirements.alignment + WORD - 1) % WORD)
            m.requirements.size props
            = (0, (w1.emit (Event.find_memory_type_index device
                m.requirements.memoryTypeBits props)).emit
                (Event.gst_vulkan_memory_alloc device type_idx
                  ((m.requirements.alignment + WORD - 1) % WORD) m.requirements.size
                  props)) := by
          simp [gst_vulkan_memory_alloc, hr, hptr]
        have hres : gst_vulkan_buffer_memory_alloc_bind env w device format size usage props
            = { ret := none,
                mem := some (gst_memory_unref_buffer
                  ((w1.emit (Event.find_memory_type_index device
                    m.requirements.memoryTypeBits props)).emit
                    (Event.gst_vulkan_memory_alloc device type_idx
                      ((m.requirements.alignment + WORD - 1) % WORD) m.requirements.size
                      props)) m).1,
                dev_mem := 0,
                world := (gst_memory_unref_buffer
                  ((w1.emit (Event.find_memory_type_index device
                    m.requirements.memoryTypeBits props)).emit
                    (Event.gst_vulkan_memory_alloc device type_idx
                      ((m.requirements.alignment + WORD - 1) % WORD) m.requirements.size
                      props)) m).2 } := by
          simp only [gst_vulkan_buffer_memory_alloc_bind, ha, hfind, hd, if_true]
        obtain ⟨_, evs, r1, r2, r3, r4, r5, r6⟩ := released_after_unref w
          ((w1.emit (Event.find_memory_type_index device
            m.requirements.memoryTypeBits props)).emit
            (Event.gst_vulkan_memory_alloc device type_idx
              ((m.requirements.alignment + WORD - 1) % WORD) m.requirements.size props))
          m ([Event.vkCreateBuffer device size usage,
              Event.vkGetBufferMemoryRequirements device
                (env.vkCreateBuffer device size usage).2,
              Event.gst_object_ref device] ++
             ([Event.find_memory_type_index device m.requirements.memoryTypeBits props] ++
              [Event.gst_vulkan_memory_alloc device type_idx
                ((m.requirements.alignment + WORD - 1) % WORD) m.requirements.size props]))
          device _ hrc hal hvk hnot hwr hdev hbuf
          (by simp only [World.emit, hw1t, List.append_assoc])
        rw [hres]
        refine ⟨rfl, ⟨fun h => Option.noConfusion h, fun h => absurd h hc⟩, evs, r1, ?_, ?_⟩
        · intro m1 hm1
          cases hm1
          exact ⟨r2, r3, r4, r5, r6⟩
        · intro h0
          exact absurd rfl h0
      · obtain ⟨w2, hd, hw2m, hw2t⟩ : ∃ w2, gst_vulkan_memory_alloc env
            (w1.emit (Event.find_memory_type_index device m.requirements.memoryTypeBits props))
            device type_idx ((m.requirements.alignment + WORD - 1) % WORD)
            m.requirements.size props = (ptr, w2) ∧
            w2.memories ptr
              = some { region with mem := { region.mem with refcount := 1 } } ∧
            w2.trace = w1.trace ++
              [Event.find_memory_type_index device m.requirements.memoryTypeBits props,
               Event.gst_vulkan_memory_alloc device type_idx
                 ((m.requirements.alignment + WORD - 1) % WORD) m.requirements.size
                 props] := by
          refine ⟨(gst_vulkan_memory_alloc env
            (w1.emit (Event.find_memory_type_index device m.requirements.memoryTypeBits
              props))
            device type_idx ((m.requirements.alignment + WORD - 1) % WORD)
            m.requirements.size props).2, ?_, ?_, ?_⟩
          · simp [gst_vulkan_memory_alloc, hr, hptr]
          · simp [gst_vulkan_memory_alloc, hr, hptr]
          · simp [gst_vulkan_memory_alloc, hr, hptr, World.emit]
        have hval : bind_validation w2 m ptr = false := by
          cases hv : bind_validation w2 m ptr
          · rfl
          · exfalso
            obtain ⟨_, h2, m1, hm1, h3⟩ := (bind_validation_iff w2 m ptr).1 hv
            rw [hw2m] at hm1
            cases hm1
            have hvm : region.mem.allocator = some GType.vulkanMemoryAllocator := by
              simpa [gst_is_vulkan_memory, hptr, hw2m] using h2
            have hfit : (region.vk_offset + m.requirements.size) % WORD
                ≤ region.mem.maxsize := by
              simpa [bind_fits, gst_memory_get_sizes] using h3
            simp [hptr, hvm, hfit] at hf
        have hbind := bind_of_validation_false env w2 m ptr hval
        have hres : gst_vulkan_buffer_memory_alloc_bind env w device format size usage props
            = { ret := none,
                mem := some (gst_memory_unref_buffer (gst_memory_unref w2 ptr) m).1,
                dev_mem := ptr,
                world := (gst_memory_unref_buffer (gst_memory_unref w2 ptr) m).2 } := by
          simp only [gst_vulkan_buffer_memory_alloc_bind, ha, hfind, hd, hptr, hbind,
            if_false, if_true]
        obtain ⟨rm, evs, r1, r2, r3, r4, r5, r6⟩ := released_after_unref w
          (gst_memory_unref w2 ptr)
          m ([Event.vkCreateBuffer device size usage,
              Event.vkGetBufferMemoryRequirements device
                (env.vkCreateBuffer device size usage).2,
              Event.gst_object_ref device] ++
             ([Event.find_memory_type_index device m.requirements.memoryTypeBits props,
               Event.gst_vulkan_memory_alloc device type_idx
                ((m.requirements.alignment + WORD - 1) % WORD) m.requirements.size props] ++
              [Event.gst_memory_unref ptr]))
          device _ hrc hal hvk hnot hwr hdev hbuf
          (by simp only [gst_memory_unref, World.emit, World.setRefcount, hw2t, hw1t,
                List.append_assoc])
        rw [hres]
        refine ⟨rfl, ⟨fun h => Option.noConfusion h, fun h => absurd h hc⟩, evs, r1, ?_, ?_⟩
        · intro m1 hm1
          cases hm1
          exact ⟨r2, r3, r4, r5, r6⟩
        · intro _
          have e1 : (gst_memory_unref_buffer (gst_memory_unref w2 ptr) m).2.refcount ptr
              = (gst_memory_unref w2 ptr).refcount ptr := by
            unfold World.refcount
            rw [rm]
          simp only []
          rw [e1, refcount_gst_memory_unref]
          simp [World.refcount, hw2m]

/-- C8 at concrete inputs: no memory type matches (the buffer memory is torn
down), and the region is too small for the buffer (region and buffer memory are
both released). -/
theorem alloc_bind_failure_releases_witness :
    alloc_bind_steps_succeed mockEnvNoType 1 4096 0 6 = false ∧
    (gst_vulkan_buffer_memory_alloc_bind mockEnvNoType World.empty 1 0 4096 0 6).ret = none ∧
    (gst_vulkan_buffer_memory_alloc_bind mockEnvNoType World.empty 1 0 4096 0 6).world.trace
      = [Event.vkCreateBuffer 1 4096 0,
         Event.vkGetBufferMemoryRequirements 1 11,
         Event.gst_object_ref 1,
         Event.find_memory_type_index 1 7 6,
         Event.vkDestroyBuffer 1 11,
         Event.gst_object_unref 1] ∧
    alloc_bind_steps_succeed mockEnvSmallRegion 1 4096 0 6 = false ∧
    (gst_vulkan_buffer_memory_alloc_bind mockEnvSmallRegion World.empty 1 0 4096 0 6).ret
      = none ∧
    (gst_vulkan_buffer_memory_alloc_bind mockEnvSmallRegion World.empty 1 0 4096 0 6).dev_mem
      = 100 ∧
    (gst_vulkan_buffer_memory_alloc_bind mockEnvSmallRegion World.empty 1 0 4096 0
      6).world.refcount 100 = some 0 :=
  ⟨by decide,
   (alloc_bind_failure_releases mockEnvNoType World.empty 1 0 4096 0 6 rfl (by decide)).1,
   by decide, by decide,
   (alloc_bind_failure_releases mockEnvSmallRegion World.empty 1 0 4096 0 6 rfl
     (by decide)).1,
   by decide, by decide⟩

end VkBufferMemory
